import Mathlib

/-!
Shallow embedding of the Book Geometry and Specification Engine of the
pdf_gen repository: the format catalog and specification-rule functions
of src/lib/types.ts, the format-resolution handlers of
src/components/Controls/Controls.tsx, and the gutter/spine overlay
geometry of src/components/Canvas/CanvasEditor.tsx.  Physical lengths
(inches) and device units are modelled as rationals; page counts as
integers; optional fields of the TypeScript objects as Option.
-/

namespace PdfGen

/-- Dimensions in inches, from the Dimensions interface of types.ts. -/
structure Dimensions where
  width : ℚ
  height : ℚ
deriving DecidableEq

/-- BookFormat from types.ts; spineWidth and pageCount are optional
fields of the TypeScript interface, so they are Option here. -/
structure BookFormat where
  id : String
  name : String
  noBleed : Dimensions
  withBleed : Dimensions
  isSpread : Bool
  gutterWidth : ℚ
  spineWidth : Option ℚ := none
  pageCount : Option ℤ := none
deriving DecidableEq

/-- The BOOK_FORMATS table of types.ts, as an association list from
format id to entry, in source order. -/
def BOOK_FORMATS : List (String × BookFormat) :=
  [ ("pocketbook",
     { id := "pocketbook", name := "Pocketbook",
       noBleed := { width := 4.25, height := 6.875 },
       withBleed := { width := 4.5, height := 7.125 },
       isSpread := false, gutterWidth := 0 }),
    ("digest",
     { id := "digest", name := "Digest",
       noBleed := { width := 5.5, height := 8.5 },
       withBleed := { width := 5.75, height := 8.75 },
       isSpread := false, gutterWidth := 0 }),
    ("a5",
     { id := "a5", name := "A5",
       noBleed := { width := 5.83, height := 8.27 },
       withBleed := { width := 6.08, height := 8.52 },
       isSpread := false, gutterWidth := 0 }),
    ("royal",
     { id := "royal", name := "Royal",
       noBleed := { width := 6.14, height := 9.21 },
       withBleed := { width := 6.39, height := 9.46 },
       isSpread := false, gutterWidth := 0 }),
    ("usTrade",
     { id := "usTrade", name := "US Trade",
       noBleed := { width := 6, height := 9 },
       withBleed := { width := 6.25, height := 9.25 },
       isSpread := false, gutterWidth := 0 }),
    ("comicBook",
     { id := "comicBook", name := "Comic Book",
       noBleed := { width := 6.63, height := 10.25 },
       withBleed := { width := 6.88, height := 10.5 },
       isSpread := false, gutterWidth := 0 }),
    ("pocketbookSpread",
     { id := "pocketbookSpread", name := "Pocketbook Cover",
       noBleed := { width := 8.5, height := 6.875 },
       withBleed := { width := 9, height := 7.125 },
       isSpread := true, gutterWidth := 0.125, spineWidth := some 0 }),
    ("digestSpread",
     { id := "digestSpread", name := "Digest Cover",
       noBleed := { width := 11, height := 8.5 },
       withBleed := { width := 11.5, height := 8.75 },
       isSpread := true, gutterWidth := 0.125, spineWidth := some 0 }) ]

/-- Exact-match catalog lookup: BOOK_FORMATS[formatId] in the source,
none when the id is absent (the TypeScript indexing yields undefined). -/
def lookupFormat (formatId : String) : Option BookFormat :=
  List.lookup formatId BOOK_FORMATS

/-- getGutterWidth of types.ts. -/
def getGutterWidth (pageCount : ℤ) : ℚ :=
  if pageCount < 60 then 0
  else if pageCount ≤ 150 then 0.125
  else if pageCount ≤ 400 then 0.5
  else if pageCount ≤ 600 then 0.625
  else 0.75

/-- calculatePaperbackSpineWidth of types.ts. -/
def calculatePaperbackSpineWidth (pageCount : ℤ) : ℚ :=
  (pageCount : ℚ) / 444 + 0.06

/-- calculateHardcoverSpineWidth of types.ts. -/
def calculateHardcoverSpineWidth (pageCount : ℤ) : ℚ :=
  if pageCount < 24 then 0
  else if pageCount ≤ 84 then 0.25
  else if pageCount ≤ 140 then 0.5
  else if pageCount ≤ 168 then 0.625
  else if pageCount ≤ 194 then 0.688
  else if pageCount ≤ 222 then 0.75
  else if pageCount ≤ 250 then 0.813
  else if pageCount ≤ 278 then 0.875
  else if pageCount ≤ 306 then 0.938
  else if pageCount ≤ 334 then 1.0
  else if pageCount ≤ 360 then 1.063
  else if pageCount ≤ 388 then 1.125
  else if pageCount ≤ 416 then 1.188
  else if pageCount ≤ 444 then 1.25
  else if pageCount ≤ 472 then 1.313
  else if pageCount ≤ 500 then 1.375
  else if pageCount ≤ 528 then 1.438
  else if pageCount ≤ 556 then 1.5
  else if pageCount ≤ 582 then 1.563
  else 1.625

/-- The bindingType state of Controls.tsx. -/
inductive BindingType where
  | paperback : BindingType
  | hardcover : BindingType
deriving DecidableEq

/-- The spine-width rule selected by binding type, as written at every
call site in Controls.tsx. -/
def spineWidthFor (b : BindingType) (pageCount : ℤ) : ℚ :=
  match b with
  | .paperback => calculatePaperbackSpineWidth pageCount
  | .hardcover => calculateHardcoverSpineWidth pageCount

/-- The component state of Controls.tsx that the format-resolution
handlers read (the show/preview toggles play no part in resolution). -/
structure ControlsState where
  selectedFormat : String
  pageCount : ℤ
  isSpread : Bool
  bindingType : BindingType
  customWidth : ℚ
  customHeight : ℚ
  useCustomSize : Bool
deriving DecidableEq

/-- Reading a property of BOOK_FORMATS[formatId] when the id is absent
throws in the TypeScript source (property access on undefined); the
handlers model that as this error. -/
inductive FormatError where
  | UnknownFormatId : FormatError
deriving DecidableEq

/-- The custom-format object literal repeated in updateFormat,
handlePageCountChange, handleToggleSpread and handleBindingTypeChange of
Controls.tsx: bleed adds 0.125 in on each side, hence 0.25 in per
dimension. -/
def mkCustomFormat (w h : ℚ) (spread : Bool) (pc : ℤ) : BookFormat :=
  { id := "custom", name := "Custom Size",
    noBleed := { width := w, height := h },
    withBleed := { width := w + 0.25, height := h + 0.25 },
    isSpread := spread,
    gutterWidth := getGutterWidth pc,
    pageCount := some pc }

/-- handleFormatChange of Controls.tsx: copy the catalog entry, set
gutterWidth from the current page count and, only when the entry is a
spread, set pageCount and spineWidth.  An absent id throws before any
format is emitted, so the error carries no format and the caller's
resolved format is untouched. -/
def handleFormatChange (formatId : String) (s : ControlsState) :
    Except FormatError (ControlsState × BookFormat) :=
  match lookupFormat formatId with
  | none => .error .UnknownFormatId
  | some entry =>
    let s1 := { s with selectedFormat := formatId, useCustomSize := false,
                       isSpread := entry.isSpread }
    let f1 := { entry with gutterWidth := getGutterWidth s.pageCount }
    let f2 := if f1.isSpread then
        { f1 with pageCount := some s.pageCount,
                  spineWidth := some (spineWidthFor s.bindingType s.pageCount) }
      else f1
    .ok (s1, f2)

/-- updateFormat of Controls.tsx: build a custom format or copy the
selected catalog entry, then always overwrite gutterWidth and pageCount,
and overwrite spineWidth when the result is a spread. -/
def updateFormat (s : ControlsState) : Except FormatError BookFormat :=
  let base : Except FormatError BookFormat :=
    if s.useCustomSize then
      .ok (mkCustomFormat s.customWidth s.customHeight s.isSpread s.pageCount)
    else
      match lookupFormat s.selectedFormat with
      | none => .error .UnknownFormatId
      | some entry => .ok entry
  match base with
  | .error e => .error e
  | .ok f0 =>
    let f1 := { f0 with gutterWidth := getGutterWidth s.pageCount,
                        pageCount := some s.pageCount }
    .ok (if f1.isSpread then
        { f1 with spineWidth := some (spineWidthFor s.bindingType s.pageCount) }
      else f1)

/-- handlePageCountChange of Controls.tsx: same resolution as
updateFormat but with the freshly entered count. -/
def handlePageCountChange (count : ℤ) (s : ControlsState) :
    Except FormatError (ControlsState × BookFormat) :=
  let s1 := { s with pageCount := count }
  let base : Except FormatError BookFormat :=
    if s.useCustomSize then
      .ok (mkCustomFormat s.customWidth s.customHeight s.isSpread count)
    else
      match lookupFormat s.selectedFormat with
      | none => .error .UnknownFormatId
      | some entry => .ok entry
  match base with
  | .error e => .error e
  | .ok f0 =>
    let f1 := { f0 with gutterWidth := getGutterWidth count,
                        pageCount := some count }
    .ok (s1, if f1.isSpread then
        { f1 with spineWidth := some (spineWidthFor s.bindingType count) }
      else f1)

/-- If the character list starts with the pattern, return what follows
it. -/
def dropPat : List Char → List Char → Option (List Char)
  | [], l => some l
  | _ :: _, [] => none
  | p :: ps, c :: cs => if p = c then dropPat ps cs else none

/-- Replace the first occurrence of a nonempty pattern in a character
list. -/
def replaceFirstList (pat repl : List Char) : List Char → List Char
  | [] => []
  | c :: cs =>
    match dropPat pat (c :: cs) with
    | some rest => repl ++ rest
    | none => c :: replaceFirstList pat repl cs

/-- JavaScript String.replace with a string pattern replaces only the
first occurrence; this mirrors that for nonempty patterns. -/
def jsReplaceFirst (s pat repl : String) : String :=
  String.mk (replaceFirstList pat.data repl.data s.data)

/-- handleToggleSpread of Controls.tsx.  Returns the new state and the
format emitted through onFormatChange, none when nothing is emitted.
Turning the spread on looks up selectedFormat + "Spread"; turning it off
strips the first "Spread" and, when the companion exists, emits the raw
catalog entry with no overwriting; when the companion is absent the
format is left untouched. -/
def handleToggleSpread (isSpreadValue : Bool) (s : ControlsState) :
    ControlsState × Option BookFormat :=
  let s1 := { s with isSpread := isSpreadValue }
  if s.useCustomSize then
    let f0 := mkCustomFormat s.customWidth s.customHeight isSpreadValue s.pageCount
    let f1 := if isSpreadValue then
        { f0 with spineWidth := some (spineWidthFor s.bindingType s.pageCount) }
      else f0
    (s1, some f1)
  else if isSpreadValue then
    let spreadFormatId := s.selectedFormat ++ "Spread"
    match lookupFormat spreadFormatId with
    | some entry =>
      let f := { entry with gutterWidth := getGutterWidth s.pageCount,
                            pageCount := some s.pageCount,
                            spineWidth := some (spineWidthFor s.bindingType s.pageCount) }
      ({ s1 with selectedFormat := spreadFormatId }, some f)
    | none => (s1, none)
  else
    let singleFormatId := jsReplaceFirst s.selectedFormat "Spread" ""
    match lookupFormat singleFormatId with
    | some entry => ({ s1 with selectedFormat := singleFormatId }, some entry)
    | none => (s1, none)

/-- handleBindingTypeChange of Controls.tsx: when a spread is active,
rebuild the format (custom or catalog copy) and overwrite pageCount and
spineWidth with the newly selected binding rule; otherwise emit
nothing. -/
def handleBindingTypeChange (t : BindingType) (s : ControlsState) :
    Except FormatError (ControlsState × Option BookFormat) :=
  let s1 := { s with bindingType := t }
  if s.isSpread then
    let base : Except FormatError BookFormat :=
      if s.useCustomSize then
        .ok (mkCustomFormat s.customWidth s.customHeight true s.pageCount)
      else
        match lookupFormat s.selectedFormat with
        | none => .error .UnknownFormatId
        | some entry => .ok entry
    match base with
    | .error e => .error e
    | .ok f0 =>
      .ok (s1, some { f0 with pageCount := some s.pageCount,
                              spineWidth := some (spineWidthFor t s.pageCount) })
  else
    .ok (s1, none)

/-- handleToggleCustomSize of Controls.tsx.  Switching custom on with
both stored custom dimensions still 0 seeds them from the current
catalog entry and emits a custom format built from that entry's noBleed;
switching custom off re-resolves the selected catalog entry; otherwise
nothing is emitted. -/
def handleToggleCustomSize (useCustom : Bool) (s : ControlsState) :
    Except FormatError (ControlsState × Option BookFormat) :=
  let s1 := { s with useCustomSize := useCustom }
  if useCustom ∧ s.customWidth = 0 ∧ s.customHeight = 0 then
    match lookupFormat s.selectedFormat with
    | none => .error .UnknownFormatId
    | some current =>
      let s2 := { s1 with customWidth := current.noBleed.width,
                          customHeight := current.noBleed.height }
      let f0 : BookFormat :=
        { id := "custom", name := "Custom Size",
          noBleed := { width := current.noBleed.width,
                       height := current.noBleed.height },
          withBleed := { width := current.noBleed.width + 0.25,
                         height := current.noBleed.height + 0.25 },
          isSpread := s.isSpread,
          gutterWidth := getGutterWidth s.pageCount,
          pageCount := some s.pageCount }
      let f1 := if s.isSpread then
          { f0 with spineWidth := some (spineWidthFor s.bindingType s.pageCount) }
        else f0
      .ok (s2, some f1)
  else if useCustom = false then
    match lookupFormat s.selectedFormat with
    | none => .error .UnknownFormatId
    | some entry =>
      let f1 := { entry with gutterWidth := getGutterWidth s.pageCount,
                             pageCount := some s.pageCount }
      let f2 := if f1.isSpread then
          { f1 with spineWidth := some (spineWidthFor s.bindingType s.pageCount) }
        else f1
      .ok (s1, some f2)
  else
    .ok (s1, none)

/-- An axis-aligned rectangle in device units, as passed to the canvas
rectangle constructor in CanvasEditor.tsx. -/
structure Band where
  left : ℚ
  top : ℚ
  width : ℚ
  height : ℚ
deriving DecidableEq

/-- The guideline objects drawGutterArea adds for a spread: the optional
translucent gutter rectangle, the optional spine rectangle, and the
x-coordinate of the dashed center line. -/
structure GutterOverlay where
  gutterArea : Option Band
  spine : Option Band
  centerLineX : ℚ
deriving DecidableEq

/-- drawGutterArea of CanvasEditor.tsx: nothing for non-spreads; for a
spread, the gutter rectangle is added only when gutterWidth times dpi is
positive, the spine rectangle only when spineWidth is defined and
positive, and the center line always sits at half the bled width. -/
def drawGutterArea (format : BookFormat) (dpi : ℚ) : Option GutterOverlay :=
  if format.isSpread = false then none
  else
    let width := format.withBleed.width * dpi
    let height := format.withBleed.height * dpi
    let gutterWidth := format.gutterWidth * dpi
    let gutterArea : Option Band :=
      if 0 < gutterWidth then
        some { left := width / 2 - gutterWidth / 2, top := 0,
               width := gutterWidth, height := height }
      else none
    let spine : Option Band :=
      match format.spineWidth with
      | some sw =>
        if 0 < sw then
          some { left := width / 2 - sw * dpi / 2, top := 0,
                 width := sw * dpi, height := height }
        else none
      | none => none
    some { gutterArea := gutterArea, spine := spine, centerLineX := width / 2 }

/-- The initial component state of Controls.tsx (the useState defaults). -/
def initState : ControlsState :=
  { selectedFormat := "usTrade", pageCount := 60, isSpread := false,
    bindingType := .paperback, customWidth := 0, customHeight := 0,
    useCustomSize := false }

/-- A state holding the pocketbookSpread format at 200 pages, about to
toggle the spread off. -/
def cex5State : ControlsState :=
  { selectedFormat := "pocketbookSpread", pageCount := 200, isSpread := true,
    bindingType := .paperback, customWidth := 0, customHeight := 0,
    useCustomSize := false }

/-- The cex5State after the selection moves back to usTrade. -/
def cex5SingleState : ControlsState :=
  { cex5State with selectedFormat := "usTrade", isSpread := false }

/-- A state holding the pocketbookSpread format at 30 pages, where the
gutter rule yields width 0. -/
def cex6State : ControlsState :=
  { selectedFormat := "pocketbookSpread", pageCount := 30, isSpread := true,
    bindingType := .paperback, customWidth := 0, customHeight := 0,
    useCustomSize := false }

/-- The format handleFormatChange resolves from cex6State: the
pocketbookSpread entry with gutterWidth, pageCount and spineWidth
overwritten for 30 pages. -/
def cex6Format : BookFormat :=
  { id := "pocketbookSpread", name := "Pocketbook Cover",
    noBleed := { width := 8.5, height := 6.875 },
    withBleed := { width := 9, height := 7.125 },
    isSpread := true, gutterWidth := getGutterWidth 30,
    spineWidth := some (spineWidthFor .paperback 30), pageCount := some 30 }

/-- A concrete spread format with a positive gutter width. -/
def witFormat : BookFormat :=
  { id := "wit", name := "wit", noBleed := { width := 8, height := 6 },
    withBleed := { width := 9, height := 7 }, isSpread := true,
    gutterWidth := 1, spineWidth := some 1, pageCount := some 100 }

/-- A custom-size state with user-supplied dimensions 5 by 8 inches. -/
def customFiveEight : ControlsState :=
  { selectedFormat := "usTrade", pageCount := 60, isSpread := false,
    bindingType := .paperback, customWidth := 5, customHeight := 8,
    useCustomSize := true }

/-- Bracket values of the hardcover spine table, one lemma per row. -/
lemma hcVal0 (p : ℤ) (h : p < 24) : calculateHardcoverSpineWidth p = 0 := by
  unfold calculateHardcoverSpineWidth
  rw [if_pos (by omega : p < 24)]

lemma hcVal1 (p : ℤ) (h1 : 24 ≤ p) (h2 : p ≤ 84) : calculateHardcoverSpineWidth p = 0.25 := by
  unfold calculateHardcoverSpineWidth
  rw [if_neg (by omega : ¬p < 24),
      if_pos (by omega : p ≤ 84)]

lemma hcVal2 (p : ℤ) (h1 : 85 ≤ p) (h2 : p ≤ 140) : calculateHardcoverSpineWidth p = 0.5 := by
  unfold calculateHardcoverSpineWidth
  rw [if_neg (by omega : ¬p < 24),
      if_neg (by omega : ¬p ≤ 84),
      if_pos (by omega : p ≤ 140)]

lemma hcVal3 (p : ℤ) (h1 : 141 ≤ p) (h2 : p ≤ 168) : calculateHardcoverSpineWidth p = 0.625 := by
  unfold calculateHardcoverSpineWidth
  rw [if_neg (by omega : ¬p < 24),
      if_neg (by omega : ¬p ≤ 84),
      if_neg (by omega : ¬p ≤ 140),
      if_pos (by omega : p ≤ 168)]

lemma hcVal4 (p : ℤ) (h1 : 169 ≤ p) (h2 : p ≤ 194) : calculateHardcoverSpineWidth p = 0.688 := by
  unfold calculateHardcoverSpineWidth
  rw [if_neg (by omega : ¬p < 24),
      if_neg (by omega : ¬p ≤ 84),
      if_neg (by omega : ¬p ≤ 140),
      if_neg (by omega : ¬p ≤ 168),
      if_pos (by omega : p ≤ 194)]

lemma hcVal5 (p : ℤ) (h1 : 195 ≤ p) (h2 : p ≤ 222) : calculateHardcoverSpineWidth p = 0.75 := by
  unfold calculateHardcoverSpineWidth
  rw [if_neg (by omega : ¬p < 24),
      if_neg (by omega : ¬p ≤ 84),
      if_neg (by omega : ¬p ≤ 140),
      if_neg (by omega : ¬p ≤ 168),
      if_neg (by omega : ¬p ≤ 194),
      if_pos (by omega : p ≤ 222)]

lemma hcVal6 (p : ℤ) (h1 : 223 ≤ p) (h2 : p ≤ 250) : calculateHardcoverSpineWidth p = 0.813 := by
  unfold calculateHardcoverSpineWidth
  rw [if_neg (by omega : ¬p < 24),
      if_neg (by omega : ¬p ≤ 84),
      if_neg (by omega : ¬p ≤ 140),
      if_neg (by omega : ¬p ≤ 168),
      if_neg (by omega : ¬p ≤ 194),
      if_neg (by omega : ¬p ≤ 222),
      if_pos (by omega : p ≤ 250)]

lemma hcVal7 (p : ℤ) (h1 : 251 ≤ p) (h2 : p ≤ 278) : calculateHardcoverSpineWidth p = 0.875 := by
  unfold calculateHardcoverSpineWidth
  rw [if_neg (by omega : ¬p < 24),
      if_neg (by omega : ¬p ≤ 84),
      if_neg (by omega : ¬p ≤ 140),
      if_neg (by omega : ¬p ≤ 168),
      if_neg (by omega : ¬p ≤ 194),
      if_neg (by omega : ¬p ≤ 222),
      if_neg (by omega : ¬p ≤ 250),
      if_pos (by omega : p ≤ 278)]

lemma hcVal8 (p : ℤ) (h1 : 279 ≤ p) (h2 : p ≤ 306) : calculateHardcoverSpineWidth p = 0.938 := by
  unfold calculateHardcoverSpineWidth
  rw [if_neg (by omega : ¬p < 24),
      if_neg (by omega : ¬p ≤ 84),
      if_neg (by omega : ¬p ≤ 140),
      if_neg (by omega : ¬p ≤ 168),
      if_neg (by omega : ¬p ≤ 194),
      if_neg (by omega : ¬p ≤ 222),
      if_neg (by omega : ¬p ≤ 250),
      if_neg (by omega : ¬p ≤ 278),
      if_pos (by omega : p ≤ 306)]

lemma hcVal9 (p : ℤ) (h1 : 307 ≤ p) (h2 : p ≤ 334) : calculateHardcoverSpineWidth p = 1.0 := by
  unfold calculateHardcoverSpineWidth
  rw [if_neg (by omega : ¬p < 24),
      if_neg (by omega : ¬p ≤ 84),
      if_neg (by omega : ¬p ≤ 140),
      if_neg (by omega : ¬p ≤ 168),
      if_neg (by omega : ¬p ≤ 194),
      if_neg (by omega : ¬p ≤ 222),
      if_neg (by omega : ¬p ≤ 250),
      if_neg (by omega : ¬p ≤ 278),
      if_neg (by omega : ¬p ≤ 306),
      if_pos (by omega : p ≤ 334)]

lemma hcVal10 (p : ℤ) (h1 : 335 ≤ p) (h2 : p ≤ 360) : calculateHardcoverSpineWidth p = 1.063 := by
  unfold calculateHardcoverSpineWidth
  rw [if_neg (by omega : ¬p < 24),
      if_neg (by omega : ¬p ≤ 84),
      if_neg (by omega : ¬p ≤ 140),
      if_neg (by omega : ¬p ≤ 168),
      if_neg (by omega : ¬p ≤ 194),
      if_neg (by omega : ¬p ≤ 222),
      if_neg (by omega : ¬p ≤ 250),
      if_neg (by omega : ¬p ≤ 278),
      if_neg (by omega : ¬p ≤ 306),
      if_neg (by omega : ¬p ≤ 334),
      if_pos (by omega : p ≤ 360)]

lemma hcVal11 (p : ℤ) (h1 : 361 ≤ p) (h2 : p ≤ 388) : calculateHardcoverSpineWidth p = 1.125 := by
  unfold calculateHardcoverSpineWidth
  rw [if_neg (by omega : ¬p < 24),
      if_neg (by omega : ¬p ≤ 84),
      if_neg (by omega : ¬p ≤ 140),
      if_neg (by omega : ¬p ≤ 168),
      if_neg (by omega : ¬p ≤ 194),
      if_neg (by omega : ¬p ≤ 222),
      if_neg (by omega : ¬p ≤ 250),
      if_neg (by omega : ¬p ≤ 278),
      if_neg (by omega : ¬p ≤ 306),
      if_neg (by omega : ¬p ≤ 334),
      if_neg (by omega : ¬p ≤ 360),
      if_pos (by omega : p ≤ 388)]

lemma hcVal12 (p : ℤ) (h1 : 389 ≤ p) (h2 : p ≤ 416) : calculateHardcoverSpineWidth p = 1.188 := by
  unfold calculateHardcoverSpineWidth
  rw [if_neg (by omega : ¬p < 24),
      if_neg (by omega : ¬p ≤ 84),
      if_neg (by omega : ¬p ≤ 140),
      if_neg (by omega : ¬p ≤ 168),
      if_neg (by omega : ¬p ≤ 194),
      if_neg (by omega : ¬p ≤ 222),
      if_neg (by omega : ¬p ≤ 250),
      if_neg (by omega : ¬p ≤ 278),
      if_neg (by omega : ¬p ≤ 306),
      if_neg (by omega : ¬p ≤ 334),
      if_neg (by omega : ¬p ≤ 360),
      if_neg (by omega : ¬p ≤ 388),
      if_pos (by omega : p ≤ 416)]

lemma hcVal13 (p : ℤ) (h1 : 417 ≤ p) (h2 : p ≤ 444) : calculateHardcoverSpineWidth p = 1.25 := by
  unfold calculateHardcoverSpineWidth
  rw [if_neg (by omega : ¬p < 24),
      if_neg (by omega : ¬p ≤ 84),
      if_neg (by omega : ¬p ≤ 140),
      if_neg (by omega : ¬p ≤ 168),
      if_neg (by omega : ¬p ≤ 194),
      if_neg (by omega : ¬p ≤ 222),
      if_neg (by omega : ¬p ≤ 250),
      if_neg (by omega : ¬p ≤ 278),
      if_neg (by omega : ¬p ≤ 306),
      if_neg (by omega : ¬p ≤ 334),
      if_neg (by omega : ¬p ≤ 360),
      if_neg (by omega : ¬p ≤ 388),
      if_neg (by omega : ¬p ≤ 416),
      if_pos (by omega : p ≤ 444)]

lemma hcVal14 (p : ℤ) (h1 : 445 ≤ p) (h2 : p ≤ 472) : calculateHardcoverSpineWidth p = 1.313 := by
  unfold calculateHardcoverSpineWidth
  rw [if_neg (by omega : ¬p < 24),
      if_neg (by omega : ¬p ≤ 84),
      if_neg (by omega : ¬p ≤ 140),
      if_neg (by omega : ¬p ≤ 168),
      if_neg (by omega : ¬p ≤ 194),
      if_neg (by omega : ¬p ≤ 222),
      if_neg (by omega : ¬p ≤ 250),
      if_neg (by omega : ¬p ≤ 278),
      if_neg (by omega : ¬p ≤ 306),
      if_neg (by omega : ¬p ≤ 334),
      if_neg (by omega : ¬p ≤ 360),
      if_neg (by omega : ¬p ≤ 388),
      if_neg (by omega : ¬p ≤ 416),
      if_neg (by omega : ¬p ≤ 444),
      if_pos (by omega : p ≤ 472)]

lemma hcVal15 (p : ℤ) (h1 : 473 ≤ p) (h2 : p ≤ 500) : calculateHardcoverSpineWidth p = 1.375 := by
  unfold calculateHardcoverSpineWidth
  rw [if_neg (by omega : ¬p < 24),
      if_neg (by omega : ¬p ≤ 84),
      if_neg (by omega : ¬p ≤ 140),
      if_neg (by omega : ¬p ≤ 168),
      if_neg (by omega : ¬p ≤ 194),
      if_neg (by omega : ¬p ≤ 222),
      if_neg (by omega : ¬p ≤ 250),
      if_neg (by omega : ¬p ≤ 278),
      if_neg (by omega : ¬p ≤ 306),
      if_neg (by omega : ¬p ≤ 334),
      if_neg (by omega : ¬p ≤ 360),
      if_neg (by omega : ¬p ≤ 388),
      if_neg (by omega : ¬p ≤ 416),
      if_neg (by omega : ¬p ≤ 444),
      if_neg (by omega : ¬p ≤ 472),
      if_pos (by omega : p ≤ 500)]

lemma hcVal16 (p : ℤ) (h1 : 501 ≤ p) (h2 : p ≤ 528) : calculateHardcoverSpineWidth p = 1.438 := by
  unfold calculateHardcoverSpineWidth
  rw [if_neg (by omega : ¬p < 24),
      if_neg (by omega : ¬p ≤ 84),
      if_neg (by omega : ¬p ≤ 140),
      if_neg (by omega : ¬p ≤ 168),
      if_neg (by omega : ¬p ≤ 194),
      if_neg (by omega : ¬p ≤ 222),
      if_neg (by omega : ¬p ≤ 250),
      if_neg (by omega : ¬p ≤ 278),
      if_neg (by omega : ¬p ≤ 306),
      if_neg (by omega : ¬p ≤ 334),
      if_neg (by omega : ¬p ≤ 360),
      if_neg (by omega : ¬p ≤ 388),
      if_neg (by omega : ¬p ≤ 416),
      if_neg (by omega : ¬p ≤ 444),
      if_neg (by omega : ¬p ≤ 472),
      if_neg (by omega : ¬p ≤ 500),
      if_pos (by omega : p ≤ 528)]

lemma hcVal17 (p : ℤ) (h1 : 529 ≤ p) (h2 : p ≤ 556) : calculateHardcoverSpineWidth p = 1.5 := by
  unfold calculateHardcoverSpineWidth
  rw [if_neg (by omega : ¬p < 24),
      if_neg (by omega : ¬p ≤ 84),
      if_neg (by omega : ¬p ≤ 140),
      if_neg (by omega : ¬p ≤ 168),
      if_neg (by omega : ¬p ≤ 194),
      if_neg (by omega : ¬p ≤ 222),
      if_neg (by omega : ¬p ≤ 250),
      if_neg (by omega : ¬p ≤ 278),
      if_neg (by omega : ¬p ≤ 306),
      if_neg (by omega : ¬p ≤ 334),
      if_neg (by omega : ¬p ≤ 360),
      if_neg (by omega : ¬p ≤ 388),
      if_neg (by omega : ¬p ≤ 416),
      if_neg (by omega : ¬p ≤ 444),
      if_neg (by omega : ¬p ≤ 472),
      if_neg (by omega : ¬p ≤ 500),
      if_neg (by omega : ¬p ≤ 528),
      if_pos (by omega : p ≤ 556)]

lemma hcVal18 (p : ℤ) (h1 : 557 ≤ p) (h2 : p ≤ 582) : calculateHardcoverSpineWidth p = 1.563 := by
  unfold calculateHardcoverSpineWidth
  rw [if_neg (by omega : ¬p < 24),
      if_neg (by omega : ¬p ≤ 84),
      if_neg (by omega : ¬p ≤ 140),
      if_neg (by omega : ¬p ≤ 168),
      if_neg (by omega : ¬p ≤ 194),
      if_neg (by omega : ¬p ≤ 222),
      if_neg (by omega : ¬p ≤ 250),
      if_neg (by omega : ¬p ≤ 278),
      if_neg (by omega : ¬p ≤ 306),
      if_neg (by omega : ¬p ≤ 334),
      if_neg (by omega : ¬p ≤ 360),
      if_neg (by omega : ¬p ≤ 388),
      if_neg (by omega : ¬p ≤ 416),
      if_neg (by omega : ¬p ≤ 444),
      if_neg (by omega : ¬p ≤ 472),
      if_neg (by omega : ¬p ≤ 500),
      if_neg (by omega : ¬p ≤ 528),
      if_neg (by omega : ¬p ≤ 556),
      if_pos (by omega : p ≤ 582)]

lemma hcVal19 (p : ℤ) (h : 583 ≤ p) : calculateHardcoverSpineWidth p = 1.625 := by
  unfold calculateHardcoverSpineWidth
  rw [if_neg (by omega : ¬p < 24),
      if_neg (by omega : ¬p ≤ 84),
      if_neg (by omega : ¬p ≤ 140),
      if_neg (by omega : ¬p ≤ 168),
      if_neg (by omega : ¬p ≤ 194),
      if_neg (by omega : ¬p ≤ 222),
      if_neg (by omega : ¬p ≤ 250),
      if_neg (by omega : ¬p ≤ 278),
      if_neg (by omega : ¬p ≤ 306),
      if_neg (by omega : ¬p ≤ 334),
      if_neg (by omega : ¬p ≤ 360),
      if_neg (by omega : ¬p ≤ 388),
      if_neg (by omega : ¬p ≤ 416),
      if_neg (by omega : ¬p ≤ 444),
      if_neg (by omega : ¬p ≤ 472),
      if_neg (by omega : ¬p ≤ 500),
      if_neg (by omega : ¬p ≤ 528),
      if_neg (by omega : ¬p ≤ 556),
      if_neg (by omega : ¬p ≤ 582)]

/-- Lower bounds for the hardcover spine table, one lemma per row. -/
lemma hcMin0 (p : ℤ) : 0 ≤ calculateHardcoverSpineWidth p := by
  have hd : p < 24 ∨ (24 ≤ p ∧ p ≤ 84) ∨ (85 ≤ p ∧ p ≤ 140) ∨ (141 ≤ p ∧ p ≤ 168) ∨ (169 ≤ p ∧ p ≤ 194) ∨ (195 ≤ p ∧ p ≤ 222) ∨ (223 ≤ p ∧ p ≤ 250) ∨ (251 ≤ p ∧ p ≤ 278) ∨ (279 ≤ p ∧ p ≤ 306) ∨ (307 ≤ p ∧ p ≤ 334) ∨ (335 ≤ p ∧ p ≤ 360) ∨ (361 ≤ p ∧ p ≤ 388) ∨ (389 ≤ p ∧ p ≤ 416) ∨ (417 ≤ p ∧ p ≤ 444) ∨ (445 ≤ p ∧ p ≤ 472) ∨ (473 ≤ p ∧ p ≤ 500) ∨ (501 ≤ p ∧ p ≤ 528) ∨ (529 ≤ p ∧ p ≤ 556) ∨ (557 ≤ p ∧ p ≤ 582) ∨ 583 ≤ p := by omega
  rcases hd with hb|hb|hb|hb|hb|hb|hb|hb|hb|hb|hb|hb|hb|hb|hb|hb|hb|hb|hb|hb
  · rw [hcVal0 p hb]
  · rw [hcVal1 p hb.1 hb.2] <;> norm_num
  · rw [hcVal2 p hb.1 hb.2] <;> norm_num
  · rw [hcVal3 p hb.1 hb.2] <;> norm_num
  · rw [hcVal4 p hb.1 hb.2] <;> norm_num
  · rw [hcVal5 p hb.1 hb.2] <;> norm_num
  · rw [hcVal6 p hb.1 hb.2] <;> norm_num
  · rw [hcVal7 p hb.1 hb.2] <;> norm_num
  · rw [hcVal8 p hb.1 hb.2] <;> norm_num
  · rw [hcVal9 p hb.1 hb.2] <;> norm_num
  · rw [hcVal10 p hb.1 hb.2] <;> norm_num
  · rw [hcVal11 p hb.1 hb.2] <;> norm_num
  · rw [hcVal12 p hb.1 hb.2] <;> norm_num
  · rw [hcVal13 p hb.1 hb.2] <;> norm_num
  · rw [hcVal14 p hb.1 hb.2] <;> norm_num
  · rw [hcVal15 p hb.1 hb.2] <;> norm_num
  · rw [hcVal16 p hb.1 hb.2] <;> norm_num
  · rw [hcVal17 p hb.1 hb.2] <;> norm_num
  · rw [hcVal18 p hb.1 hb.2] <;> norm_num
  · rw [hcVal19 p hb] <;> norm_num

lemma hcMin1 (p : ℤ) (h : 24 ≤ p) : 0.25 ≤ calculateHardcoverSpineWidth p := by
  have hd : (24 ≤ p ∧ p ≤ 84) ∨ (85 ≤ p ∧ p ≤ 140) ∨ (141 ≤ p ∧ p ≤ 168) ∨ (169 ≤ p ∧ p ≤ 194) ∨ (195 ≤ p ∧ p ≤ 222) ∨ (223 ≤ p ∧ p ≤ 250) ∨ (251 ≤ p ∧ p ≤ 278) ∨ (279 ≤ p ∧ p ≤ 306) ∨ (307 ≤ p ∧ p ≤ 334) ∨ (335 ≤ p ∧ p ≤ 360) ∨ (361 ≤ p ∧ p ≤ 388) ∨ (389 ≤ p ∧ p ≤ 416) ∨ (417 ≤ p ∧ p ≤ 444) ∨ (445 ≤ p ∧ p ≤ 472) ∨ (473 ≤ p ∧ p ≤ 500) ∨ (501 ≤ p ∧ p ≤ 528) ∨ (529 ≤ p ∧ p ≤ 556) ∨ (557 ≤ p ∧ p ≤ 582) ∨ 583 ≤ p := by omega
  rcases hd with hb|hb|hb|hb|hb|hb|hb|hb|hb|hb|hb|hb|hb|hb|hb|hb|hb|hb|hb
  · rw [hcVal1 p hb.1 hb.2] <;> norm_num
  · rw [hcVal2 p hb.1 hb.2] <;> norm_num
  · rw [hcVal3 p hb.1 hb.2] <;> norm_num
  · rw [hcVal4 p hb.1 hb.2] <;> norm_num
  · rw [hcVal5 p hb.1 hb.2] <;> norm_num
  · rw [hcVal6 p hb.1 hb.2] <;> norm_num
  · rw [hcVal7 p hb.1 hb.2] <;> norm_num
  · rw [hcVal8 p hb.1 hb.2] <;> norm_num
  · rw [hcVal9 p hb.1 hb.2] <;> norm_num
  · rw [hcVal10 p hb.1 hb.2] <;> norm_num
  · rw [hcVal11 p hb.1 hb.2] <;> norm_num
  · rw [hcVal12 p hb.1 hb.2] <;> norm_num
  · rw [hcVal13 p hb.1 hb.2] <;> norm_num
  · rw [hcVal14 p hb.1 hb.2] <;> norm_num
  · rw [hcVal15 p hb.1 hb.2] <;> norm_num
  · rw [hcVal16 p hb.1 hb.2] <;> norm_num
  · rw [hcVal17 p hb.1 hb.2] <;> norm_num
  · rw [hcVal18 p hb.1 hb.2] <;> norm_num
  · rw [hcVal19 p hb] <;> norm_num

lemma hcMin2 (p : ℤ) (h : 85 ≤ p) : 0.5 ≤ calculateHardcoverSpineWidth p := by
  have hd : (85 ≤ p ∧ p ≤ 140) ∨ (141 ≤ p ∧ p ≤ 168) ∨ (169 ≤ p ∧ p ≤ 194) ∨ (195 ≤ p ∧ p ≤ 222) ∨ (223 ≤ p ∧ p ≤ 250) ∨ (251 ≤ p ∧ p ≤ 278) ∨ (279 ≤ p ∧ p ≤ 306) ∨ (307 ≤ p ∧ p ≤ 334) ∨ (335 ≤ p ∧ p ≤ 360) ∨ (361 ≤ p ∧ p ≤ 388) ∨ (389 ≤ p ∧ p ≤ 416) ∨ (417 ≤ p ∧ p ≤ 444) ∨ (445 ≤ p ∧ p ≤ 472) ∨ (473 ≤ p ∧ p ≤ 500) ∨ (501 ≤ p ∧ p ≤ 528) ∨ (529 ≤ p ∧ p ≤ 556) ∨ (557 ≤ p ∧ p ≤ 582) ∨ 583 ≤ p := by omega
  rcases hd with hb|hb|hb|hb|hb|hb|hb|hb|hb|hb|hb|hb|hb|hb|hb|hb|hb|hb
  · rw [hcVal2 p hb.1 hb.2] <;> norm_num
  · rw [hcVal3 p hb.1 hb.2] <;> norm_num
  · rw [hcVal4 p hb.1 hb.2] <;> norm_num
  · rw [hcVal5 p hb.1 hb.2] <;> norm_num
  · rw [hcVal6 p hb.1 hb.2] <;> norm_num
  · rw [hcVal7 p hb.1 hb.2] <;> norm_num
  · rw [hcVal8 p hb.1 hb.2] <;> norm_num
  · rw [hcVal9 p hb.1 hb.2] <;> norm_num
  · rw [hcVal10 p hb.1 hb.2] <;> norm_num
  · rw [hcVal11 p hb.1 hb.2] <;> norm_num
  · rw [hcVal12 p hb.1 hb.2] <;> norm_num
  · rw [hcVal13 p hb.1 hb.2] <;> norm_num
  · rw [hcVal14 p hb.1 hb.2] <;> norm_num
  · rw [hcVal15 p hb.1 hb.2] <;> norm_num
  · rw [hcVal16 p hb.1 hb.2] <;> norm_num
  · rw [hcVal17 p hb.1 hb.2] <;> norm_num
  · rw [hcVal18 p hb.1 hb.2] <;> norm_num
  · rw [hcVal19 p hb] <;> norm_num

lemma hcMin3 (p : ℤ) (h : 141 ≤ p) : 0.625 ≤ calculateHardcoverSpineWidth p := by
  have hd : (141 ≤ p ∧ p ≤ 168) ∨ (169 ≤ p ∧ p ≤ 194) ∨ (195 ≤ p ∧ p ≤ 222) ∨ (223 ≤ p ∧ p ≤ 250) ∨ (251 ≤ p ∧ p ≤ 278) ∨ (279 ≤ p ∧ p ≤ 306) ∨ (307 ≤ p ∧ p ≤ 334) ∨ (335 ≤ p ∧ p ≤ 360) ∨ (361 ≤ p ∧ p ≤ 388) ∨ (389 ≤ p ∧ p ≤ 416) ∨ (417 ≤ p ∧ p ≤ 444) ∨ (445 ≤ p ∧ p ≤ 472) ∨ (473 ≤ p ∧ p ≤ 500) ∨ (501 ≤ p ∧ p ≤ 528) ∨ (529 ≤ p ∧ p ≤ 556) ∨ (557 ≤ p ∧ p ≤ 582) ∨ 583 ≤ p := by omega
  rcases hd with hb|hb|hb|hb|hb|hb|hb|hb|hb|hb|hb|hb|hb|hb|hb|hb|hb
  · rw [hcVal3 p hb.1 hb.2] <;> norm_num
  · rw [hcVal4 p hb.1 hb.2] <;> norm_num
  · rw [hcVal5 p hb.1 hb.2] <;> norm_num
  · rw [hcVal6 p hb.1 hb.2] <;> norm_num
  · rw [hcVal7 p hb.1 hb.2] <;> norm_num
  · rw [hcVal8 p hb.1 hb.2] <;> norm_num
  · rw [hcVal9 p hb.1 hb.2] <;> norm_num
  · rw [hcVal10 p hb.1 hb.2] <;> norm_num
  · rw [hcVal11 p hb.1 hb.2] <;> norm_num
  · rw [hcVal12 p hb.1 hb.2] <;> norm_num
  · rw [hcVal13 p hb.1 hb.2] <;> norm_num
  · rw [hcVal14 p hb.1 hb.2] <;> norm_num
  · rw [hcVal15 p hb.1 hb.2] <;> norm_num
  · rw [hcVal16 p hb.1 hb.2] <;> norm_num
  · rw [hcVal17 p hb.1 hb.2] <;> norm_num
  · rw [hcVal18 p hb.1 hb.2] <;> norm_num
  · rw [hcVal19 p hb] <;> norm_num

lemma hcMin4 (p : ℤ) (h : 169 ≤ p) : 0.688 ≤ calculateHardcoverSpineWidth p := by
  have hd : (169 ≤ p ∧ p ≤ 194) ∨ (195 ≤ p ∧ p ≤ 222) ∨ (223 ≤ p ∧ p ≤ 250) ∨ (251 ≤ p ∧ p ≤ 278) ∨ (279 ≤ p ∧ p ≤ 306) ∨ (307 ≤ p ∧ p ≤ 334) ∨ (335 ≤ p ∧ p ≤ 360) ∨ (361 ≤ p ∧ p ≤ 388) ∨ (389 ≤ p ∧ p ≤ 416) ∨ (417 ≤ p ∧ p ≤ 444) ∨ (445 ≤ p ∧ p ≤ 472) ∨ (473 ≤ p ∧ p ≤ 500) ∨ (501 ≤ p ∧ p ≤ 528) ∨ (529 ≤ p ∧ p ≤ 556) ∨ (557 ≤ p ∧ p ≤ 582) ∨ 583 ≤ p := by omega
  rcases hd with hb|hb|hb|hb|hb|hb|hb|hb|hb|hb|hb|hb|hb|hb|hb|hb
  · rw [hcVal4 p hb.1 hb.2] <;> norm_num
  · rw [hcVal5 p hb.1 hb.2] <;> norm_num
  · rw [hcVal6 p hb.1 hb.2] <;> norm_num
  · rw [hcVal7 p hb.1 hb.2] <;> norm_num
  · rw [hcVal8 p hb.1 hb.2] <;> norm_num
  · rw [hcVal9 p hb.1 hb.2] <;> norm_num
  · rw [hcVal10 p hb.1 hb.2] <;> norm_num
  · rw [hcVal11 p hb.1 hb.2] <;> norm_num
  · rw [hcVal12 p hb.1 hb.2] <;> norm_num
  · rw [hcVal13 p hb.1 hb.2] <;> norm_num
  · rw [hcVal14 p hb.1 hb.2] <;> norm_num
  · rw [hcVal15 p hb.1 hb.2] <;> norm_num
  · rw [hcVal16 p hb.1 hb.2] <;> norm_num
  · rw [hcVal17 p hb.1 hb.2] <;> norm_num
  · rw [hcVal18 p hb.1 hb.2] <;> norm_num
  · rw [hcVal19 p hb] <;> norm_num

lemma hcMin5 (p : ℤ) (h : 195 ≤ p) : 0.75 ≤ calculateHardcoverSpineWidth p := by
  have hd : (195 ≤ p ∧ p ≤ 222) ∨ (223 ≤ p ∧ p ≤ 250) ∨ (251 ≤ p ∧ p ≤ 278) ∨ (279 ≤ p ∧ p ≤ 306) ∨ (307 ≤ p ∧ p ≤ 334) ∨ (335 ≤ p ∧ p ≤ 360) ∨ (361 ≤ p ∧ p ≤ 388) ∨ (389 ≤ p ∧ p ≤ 416) ∨ (417 ≤ p ∧ p ≤ 444) ∨ (445 ≤ p ∧ p ≤ 472) ∨ (473 ≤ p ∧ p ≤ 500) ∨ (501 ≤ p ∧ p ≤ 528) ∨ (529 ≤ p ∧ p ≤ 556) ∨ (557 ≤ p ∧ p ≤ 582) ∨ 583 ≤ p := by omega
  rcases hd with hb|hb|hb|hb|hb|hb|hb|hb|hb|hb|hb|hb|hb|hb|hb
  · rw [hcVal5 p hb.1 hb.2] <;> norm_num
  · rw [hcVal6 p hb.1 hb.2] <;> norm_num
  · rw [hcVal7 p hb.1 hb.2] <;> norm_num
  · rw [hcVal8 p hb.1 hb.2] <;> norm_num
  · rw [hcVal9 p hb.1 hb.2] <;> norm_num
  · rw [hcVal10 p hb.1 hb.2] <;> norm_num
  · rw [hcVal11 p hb.1 hb.2] <;> norm_num
  · rw [hcVal12 p hb.1 hb.2] <;> norm_num
  · rw [hcVal13 p hb.1 hb.2] <;> norm_num
  · rw [hcVal14 p hb.1 hb.2] <;> norm_num
  · rw [hcVal15 p hb.1 hb.2] <;> norm_num
  · rw [hcVal16 p hb.1 hb.2] <;> norm_num
  · rw [hcVal17 p hb.1 hb.2] <;> norm_num
  · rw [hcVal18 p hb.1 hb.2] <;> norm_num
  · rw [hcVal19 p hb] <;> norm_num

lemma hcMin6 (p : ℤ) (h : 223 ≤ p) : 0.813 ≤ calculateHardcoverSpineWidth p := by
  have hd : (223 ≤ p ∧ p ≤ 250) ∨ (251 ≤ p ∧ p ≤ 278) ∨ (279 ≤ p ∧ p ≤ 306) ∨ (307 ≤ p ∧ p ≤ 334) ∨ (335 ≤ p ∧ p ≤ 360) ∨ (361 ≤ p ∧ p ≤ 388) ∨ (389 ≤ p ∧ p ≤ 416) ∨ (417 ≤ p ∧ p ≤ 444) ∨ (445 ≤ p ∧ p ≤ 472) ∨ (473 ≤ p ∧ p ≤ 500) ∨ (501 ≤ p ∧ p ≤ 528) ∨ (529 ≤ p ∧ p ≤ 556) ∨ (557 ≤ p ∧ p ≤ 582) ∨ 583 ≤ p := by omega
  rcases hd with hb|hb|hb|hb|hb|hb|hb|hb|hb|hb|hb|hb|hb|hb
  · rw [hcVal6 p hb.1 hb.2] <;> norm_num
  · rw [hcVal7 p hb.1 hb.2] <;> norm_num
  · rw [hcVal8 p hb.1 hb.2] <;> norm_num
  · rw [hcVal9 p hb.1 hb.2] <;> norm_num
  · rw [hcVal10 p hb.1 hb.2] <;> norm_num
  · rw [hcVal11 p hb.1 hb.2] <;> norm_num
  · rw [hcVal12 p hb.1 hb.2] <;> norm_num
  · rw [hcVal13 p hb.1 hb.2] <;> norm_num
  · rw [hcVal14 p hb.1 hb.2] <;> norm_num
  · rw [hcVal15 p hb.1 hb.2] <;> norm_num
  · rw [hcVal16 p hb.1 hb.2] <;> norm_num
  · rw [hcVal17 p hb.1 hb.2] <;> norm_num
  · rw [hcVal18 p hb.1 hb.2] <;> norm_num
  · rw [hcVal19 p hb] <;> norm_num

lemma hcMin7 (p : ℤ) (h : 251 ≤ p) : 0.875 ≤ calculateHardcoverSpineWidth p := by
  have hd : (251 ≤ p ∧ p ≤ 278) ∨ (279 ≤ p ∧ p ≤ 306) ∨ (307 ≤ p ∧ p ≤ 334) ∨ (335 ≤ p ∧ p ≤ 360) ∨ (361 ≤ p ∧ p ≤ 388) ∨ (389 ≤ p ∧ p ≤ 416) ∨ (417 ≤ p ∧ p ≤ 444) ∨ (445 ≤ p ∧ p ≤ 472) ∨ (473 ≤ p ∧ p ≤ 500) ∨ (501 ≤ p ∧ p ≤ 528) ∨ (529 ≤ p ∧ p ≤ 556) ∨ (557 ≤ p ∧ p ≤ 582) ∨ 583 ≤ p := by omega
  rcases hd with hb|hb|hb|hb|hb|hb|hb|hb|hb|hb|hb|hb|hb
  · rw [hcVal7 p hb.1 hb.2] <;> norm_num
  · rw [hcVal8 p hb.1 hb.2] <;> norm_num
  · rw [hcVal9 p hb.1 hb.2] <;> norm_num
  · rw [hcVal10 p hb.1 hb.2] <;> norm_num
  · rw [hcVal11 p hb.1 hb.2] <;> norm_num
  · rw [hcVal12 p hb.1 hb.2] <;> norm_num
  · rw [hcVal13 p hb.1 hb.2] <;> norm_num
  · rw [hcVal14 p hb.1 hb.2] <;> norm_num
  · rw [hcVal15 p hb.1 hb.2] <;> norm_num
  · rw [hcVal16 p hb.1 hb.2] <;> norm_num
  · rw [hcVal17 p hb.1 hb.2] <;> norm_num
  · rw [hcVal18 p hb.1 hb.2] <;> norm_num
  · rw [hcVal19 p hb] <;> norm_num

lemma hcMin8 (p : ℤ) (h : 279 ≤ p) : 0.938 ≤ calculateHardcoverSpineWidth p := by
  have hd : (279 ≤ p ∧ p ≤ 306) ∨ (307 ≤ p ∧ p ≤ 334) ∨ (335 ≤ p ∧ p ≤ 360) ∨ (361 ≤ p ∧ p ≤ 388) ∨ (389 ≤ p ∧ p ≤ 416) ∨ (417 ≤ p ∧ p ≤ 444) ∨ (445 ≤ p ∧ p ≤ 472) ∨ (473 ≤ p ∧ p ≤ 500) ∨ (501 ≤ p ∧ p ≤ 528) ∨ (529 ≤ p ∧ p ≤ 556) ∨ (557 ≤ p ∧ p ≤ 582) ∨ 583 ≤ p := by omega
  rcases hd with hb|hb|hb|hb|hb|hb|hb|hb|hb|hb|hb|hb
  · rw [hcVal8 p hb.1 hb.2] <;> norm_num
  · rw [hcVal9 p hb.1 hb.2] <;> norm_num
  · rw [hcVal10 p hb.1 hb.2] <;> norm_num
  · rw [hcVal11 p hb.1 hb.2] <;> norm_num
  · rw [hcVal12 p hb.1 hb.2] <;> norm_num
  · rw [hcVal13 p hb.1 hb.2] <;> norm_num
  · rw [hcVal14 p hb.1 hb.2] <;> norm_num
  · rw [hcVal15 p hb.1 hb.2] <;> norm_num
  · rw [hcVal16 p hb.1 hb.2] <;> norm_num
  · rw [hcVal17 p hb.1 hb.2] <;> norm_num
  · rw [hcVal18 p hb.1 hb.2] <;> norm_num
  · rw [hcVal19 p hb] <;> norm_num

lemma hcMin9 (p : ℤ) (h : 307 ≤ p) : 1.0 ≤ calculateHardcoverSpineWidth p := by
  have hd : (307 ≤ p ∧ p ≤ 334) ∨ (335 ≤ p ∧ p ≤ 360) ∨ (361 ≤ p ∧ p ≤ 388) ∨ (389 ≤ p ∧ p ≤ 416) ∨ (417 ≤ p ∧ p ≤ 444) ∨ (445 ≤ p ∧ p ≤ 472) ∨ (473 ≤ p ∧ p ≤ 500) ∨ (501 ≤ p ∧ p ≤ 528) ∨ (529 ≤ p ∧ p ≤ 556) ∨ (557 ≤ p ∧ p ≤ 582) ∨ 583 ≤ p := by omega
  rcases hd with hb|hb|hb|hb|hb|hb|hb|hb|hb|hb|hb
  · rw [hcVal9 p hb.1 hb.2] <;> norm_num
  · rw [hcVal10 p hb.1 hb.2] <;> norm_num
  · rw [hcVal11 p hb.1 hb.2] <;> norm_num
  · rw [hcVal12 p hb.1 hb.2] <;> norm_num
  · rw [hcVal13 p hb.1 hb.2] <;> norm_num
  · rw [hcVal14 p hb.1 hb.2] <;> norm_num
  · rw [hcVal15 p hb.1 hb.2] <;> norm_num
  · rw [hcVal16 p hb.1 hb.2] <;> norm_num
  · rw [hcVal17 p hb.1 hb.2] <;> norm_num
  · rw [hcVal18 p hb.1 hb.2] <;> norm_num
  · rw [hcVal19 p hb] <;> norm_num

lemma hcMin10 (p : ℤ) (h : 335 ≤ p) : 1.063 ≤ calculateHardcoverSpineWidth p := by
  have hd : (335 ≤ p ∧ p ≤ 360) ∨ (361 ≤ p ∧ p ≤ 388) ∨ (389 ≤ p ∧ p ≤ 416) ∨ (417 ≤ p ∧ p ≤ 444) ∨ (445 ≤ p ∧ p ≤ 472) ∨ (473 ≤ p ∧ p ≤ 500) ∨ (501 ≤ p ∧ p ≤ 528) ∨ (529 ≤ p ∧ p ≤ 556) ∨ (557 ≤ p ∧ p ≤ 582) ∨ 583 ≤ p := by omega
  rcases hd with hb|hb|hb|hb|hb|hb|hb|hb|hb|hb
  · rw [hcVal10 p hb.1 hb.2] <;> norm_num
  · rw [hcVal11 p hb.1 hb.2] <;> norm_num
  · rw [hcVal12 p hb.1 hb.2] <;> norm_num
  · rw [hcVal13 p hb.1 hb.2] <;> norm_num
  · rw [hcVal14 p hb.1 hb.2] <;> norm_num
  · rw [hcVal15 p hb.1 hb.2] <;> norm_num
  · rw [hcVal16 p hb.1 hb.2] <;> norm_num
  · rw [hcVal17 p hb.1 hb.2] <;> norm_num
  · rw [hcVal18 p hb.1 hb.2] <;> norm_num
  · rw [hcVal19 p hb] <;> norm_num

lemma hcMin11 (p : ℤ) (h : 361 ≤ p) : 1.125 ≤ calculateHardcoverSpineWidth p := by
  have hd : (361 ≤ p ∧ p ≤ 388) ∨ (389 ≤ p ∧ p ≤ 416) ∨ (417 ≤ p ∧ p ≤ 444) ∨ (445 ≤ p ∧ p ≤ 472) ∨ (473 ≤ p ∧ p ≤ 500) ∨ (501 ≤ p ∧ p ≤ 528) ∨ (529 ≤ p ∧ p ≤ 556) ∨ (557 ≤ p ∧ p ≤ 582) ∨ 583 ≤ p := by omega
  rcases hd with hb|hb|hb|hb|hb|hb|hb|hb|hb
  · rw [hcVal11 p hb.1 hb.2] <;> norm_num
  · rw [hcVal12 p hb.1 hb.2] <;> norm_num
  · rw [hcVal13 p hb.1 hb.2] <;> norm_num
  · rw [hcVal14 p hb.1 hb.2] <;> norm_num
  · rw [hcVal15 p hb.1 hb.2] <;> norm_num
  · rw [hcVal16 p hb.1 hb.2] <;> norm_num
  · rw [hcVal17 p hb.1 hb.2] <;> norm_num
  · rw [hcVal18 p hb.1 hb.2] <;> norm_num
  · rw [hcVal19 p hb] <;> norm_num

lemma hcMin12 (p : ℤ) (h : 389 ≤ p) : 1.188 ≤ calculateHardcoverSpineWidth p := by
  have hd : (389 ≤ p ∧ p ≤ 416) ∨ (417 ≤ p ∧ p ≤ 444) ∨ (445 ≤ p ∧ p ≤ 472) ∨ (473 ≤ p ∧ p ≤ 500) ∨ (501 ≤ p ∧ p ≤ 528) ∨ (529 ≤ p ∧ p ≤ 556) ∨ (557 ≤ p ∧ p ≤ 582) ∨ 583 ≤ p := by omega
  rcases hd with hb|hb|hb|hb|hb|hb|hb|hb
  · rw [hcVal12 p hb.1 hb.2] <;> norm_num
  · rw [hcVal13 p hb.1 hb.2] <;> norm_num
  · rw [hcVal14 p hb.1 hb.2] <;> norm_num
  · rw [hcVal15 p hb.1 hb.2] <;> norm_num
  · rw [hcVal16 p hb.1 hb.2] <;> norm_num
  · rw [hcVal17 p hb.1 hb.2] <;> norm_num
  · rw [hcVal18 p hb.1 hb.2] <;> norm_num
  · rw [hcVal19 p hb] <;> norm_num

lemma hcMin13 (p : ℤ) (h : 417 ≤ p) : 1.25 ≤ calculateHardcoverSpineWidth p := by
  have hd : (417 ≤ p ∧ p ≤ 444) ∨ (445 ≤ p ∧ p ≤ 472) ∨ (473 ≤ p ∧ p ≤ 500) ∨ (501 ≤ p ∧ p ≤ 528) ∨ (529 ≤ p ∧ p ≤ 556) ∨ (557 ≤ p ∧ p ≤ 582) ∨ 583 ≤ p := by omega
  rcases hd with hb|hb|hb|hb|hb|hb|hb
  · rw [hcVal13 p hb.1 hb.2] <;> norm_num
  · rw [hcVal14 p hb.1 hb.2] <;> norm_num
  · rw [hcVal15 p hb.1 hb.2] <;> norm_num
  · rw [hcVal16 p hb.1 hb.2] <;> norm_num
  · rw [hcVal17 p hb.1 hb.2] <;> norm_num
  · rw [hcVal18 p hb.1 hb.2] <;> norm_num
  · rw [hcVal19 p hb] <;> norm_num

lemma hcMin14 (p : ℤ) (h : 445 ≤ p) : 1.313 ≤ calculateHardcoverSpineWidth p := by
  have hd : (445 ≤ p ∧ p ≤ 472) ∨ (473 ≤ p ∧ p ≤ 500) ∨ (501 ≤ p ∧ p ≤ 528) ∨ (529 ≤ p ∧ p ≤ 556) ∨ (557 ≤ p ∧ p ≤ 582) ∨ 583 ≤ p := by omega
  rcases hd with hb|hb|hb|hb|hb|hb
  · rw [hcVal14 p hb.1 hb.2] <;> norm_num
  · rw [hcVal15 p hb.1 hb.2] <;> norm_num
  · rw [hcVal16 p hb.1 hb.2] <;> norm_num
  · rw [hcVal17 p hb.1 hb.2] <;> norm_num
  · rw [hcVal18 p hb.1 hb.2] <;> norm_num
  · rw [hcVal19 p hb] <;> norm_num

lemma hcMin15 (p : ℤ) (h : 473 ≤ p) : 1.375 ≤ calculateHardcoverSpineWidth p := by
  have hd : (473 ≤ p ∧ p ≤ 500) ∨ (501 ≤ p ∧ p ≤ 528) ∨ (529 ≤ p ∧ p ≤ 556) ∨ (557 ≤ p ∧ p ≤ 582) ∨ 583 ≤ p := by omega
  rcases hd with hb|hb|hb|hb|hb
  · rw [hcVal15 p hb.1 hb.2] <;> norm_num
  · rw [hcVal16 p hb.1 hb.2] <;> norm_num
  · rw [hcVal17 p hb.1 hb.2] <;> norm_num
  · rw [hcVal18 p hb.1 hb.2] <;> norm_num
  · rw [hcVal19 p hb] <;> norm_num

lemma hcMin16 (p : ℤ) (h : 501 ≤ p) : 1.438 ≤ calculateHardcoverSpineWidth p := by
  have hd : (501 ≤ p ∧ p ≤ 528) ∨ (529 ≤ p ∧ p ≤ 556) ∨ (557 ≤ p ∧ p ≤ 582) ∨ 583 ≤ p := by omega
  rcases hd with hb|hb|hb|hb
  · rw [hcVal16 p hb.1 hb.2] <;> norm_num
  · rw [hcVal17 p hb.1 hb.2] <;> norm_num
  · rw [hcVal18 p hb.1 hb.2] <;> norm_num
  · rw [hcVal19 p hb] <;> norm_num

lemma hcMin17 (p : ℤ) (h : 529 ≤ p) : 1.5 ≤ calculateHardcoverSpineWidth p := by
  have hd : (529 ≤ p ∧ p ≤ 556) ∨ (557 ≤ p ∧ p ≤ 582) ∨ 583 ≤ p := by omega
  rcases hd with hb|hb|hb
  · rw [hcVal17 p hb.1 hb.2] <;> norm_num
  · rw [hcVal18 p hb.1 hb.2] <;> norm_num
  · rw [hcVal19 p hb] <;> norm_num

lemma hcMin18 (p : ℤ) (h : 557 ≤ p) : 1.563 ≤ calculateHardcoverSpineWidth p := by
  have hd : (557 ≤ p ∧ p ≤ 582) ∨ 583 ≤ p := by omega
  rcases hd with hb|hb
  · rw [hcVal18 p hb.1 hb.2] <;> norm_num
  · rw [hcVal19 p hb] <;> norm_num

lemma hcMin19 (p : ℤ) (h : 583 ≤ p) : 1.625 ≤ calculateHardcoverSpineWidth p := by
  rw [hcVal19 p (by omega)]

/-- Claim C1: getGutterWidth returns 0 below 60 pages, 0.125 for 60 to
150, 0.5 for 151 to 400, 0.625 for 401 to 600 and 0.75 above 600, with
the 60-page boundary yielding 0.125; the ten listed test inputs return
the listed values. -/
theorem claim_C1 :
    (∀ p : ℤ,
      (p < 60 → getGutterWidth p = 0) /\
      (60 ≤ p → p ≤ 150 → getGutterWidth p = 0.125) /\
      (151 ≤ p → p ≤ 400 → getGutterWidth p = 0.5) /\
      (401 ≤ p → p ≤ 600 → getGutterWidth p = 0.625) /\
      (600 < p → getGutterWidth p = 0.75)) /\
    getGutterWidth 60 = 0.125 /\
    getGutterWidth 0 = 0 /\ getGutterWidth 59 = 0 /\
    getGutterWidth 150 = 0.125 /\ getGutterWidth 151 = 0.5 /\
    getGutterWidth 400 = 0.5 /\ getGutterWidth 401 = 0.625 /\
    getGutterWidth 600 = 0.625 /\ getGutterWidth 601 = 0.75 /\
    getGutterWidth 10000 = 0.75 := by
  refine ⟨fun p => ⟨?_, ?_, ?_, ?_, ?_⟩, rfl, rfl, rfl, rfl, rfl, rfl, rfl, rfl, rfl, rfl⟩ <;>
    (intros; unfold getGutterWidth; split_ifs <;> first | rfl | omega)

/-- Witness for C1 at the 60-page boundary. -/
theorem claim_C1_witness :
    (60 : ℤ) ≤ 60 /\ (60 : ℤ) ≤ 150 /\ getGutterWidth 60 = 0.125 :=
  ⟨by decide, by decide, (claim_C1.1 60).2.1 (by decide) (by decide)⟩

/-- Claim C2: calculateHardcoverSpineWidth returns 0 below 24 pages and
follows the bracket table (upper bounds 84, 140, ..., 582 inclusive,
then 1.625); in particular 23 yields 0, 24 yields 0.25 and 600 yields
1.625, and every count above 582 yields 1.625. -/
theorem claim_C2 :
    (∀ p : ℤ,
      (p < 24 → calculateHardcoverSpineWidth p = 0) /\
      (24 ≤ p → p ≤ 84 → calculateHardcoverSpineWidth p = 0.25) /\
      (85 ≤ p → p ≤ 140 → calculateHardcoverSpineWidth p = 0.5) /\
      (141 ≤ p → p ≤ 168 → calculateHardcoverSpineWidth p = 0.625) /\
      (169 ≤ p → p ≤ 194 → calculateHardcoverSpineWidth p = 0.688) /\
      (195 ≤ p → p ≤ 222 → calculateHardcoverSpineWidth p = 0.75) /\
      (223 ≤ p → p ≤ 250 → calculateHardcoverSpineWidth p = 0.813) /\
      (251 ≤ p → p ≤ 278 → calculateHardcoverSpineWidth p = 0.875) /\
      (279 ≤ p → p ≤ 306 → calculateHardcoverSpineWidth p = 0.938) /\
      (307 ≤ p → p ≤ 334 → calculateHardcoverSpineWidth p = 1.0) /\
      (335 ≤ p → p ≤ 360 → calculateHardcoverSpineWidth p = 1.063) /\
      (361 ≤ p → p ≤ 388 → calculateHardcoverSpineWidth p = 1.125) /\
      (389 ≤ p → p ≤ 416 → calculateHardcoverSpineWidth p = 1.188) /\
      (417 ≤ p → p ≤ 444 → calculateHardcoverSpineWidth p = 1.25) /\
      (445 ≤ p → p ≤ 472 → calculateHardcoverSpineWidth p = 1.313) /\
      (473 ≤ p → p ≤ 500 → calculateHardcoverSpineWidth p = 1.375) /\
      (501 ≤ p → p ≤ 528 → calculateHardcoverSpineWidth p = 1.438) /\
      (529 ≤ p → p ≤ 556 → calculateHardcoverSpineWidth p = 1.5) /\
      (557 ≤ p → p ≤ 582 → calculateHardcoverSpineWidth p = 1.563) /\
      (582 < p → calculateHardcoverSpineWidth p = 1.625)) /\
    calculateHardcoverSpineWidth 23 = 0 /\
    calculateHardcoverSpineWidth 24 = 0.25 /\
    calculateHardcoverSpineWidth 600 = 1.625 :=
  ⟨fun p =>
    ⟨hcVal0 p, hcVal1 p, hcVal2 p, hcVal3 p, hcVal4 p, hcVal5 p, hcVal6 p,
     hcVal7 p, hcVal8 p, hcVal9 p, hcVal10 p, hcVal11 p, hcVal12 p,
     hcVal13 p, hcVal14 p, hcVal15 p, hcVal16 p, hcVal17 p, hcVal18 p,
     fun h => hcVal19 p (by omega)⟩,
   hcVal0 23 (by decide), hcVal1 24 (by decide) (by decide),
   hcVal19 600 (by decide)⟩

/-- Witness for C2 at the 24-page boundary. -/
theorem claim_C2_witness :
    (24 : ℤ) ≤ 24 /\ (24 : ℤ) ≤ 84 /\ calculateHardcoverSpineWidth 24 = 0.25 :=
  ⟨by decide, by decide, (claim_C2.1 24).2.1 (by decide) (by decide)⟩

/-- Claim C3: calculatePaperbackSpineWidth is exactly pageCount / 444 +
0.06 with no clamping (it is strictly increasing), and 444 maps to 1.06,
0 to 0.06. -/
theorem claim_C3 :
    (∀ p : ℤ, 0 ≤ p →
       calculatePaperbackSpineWidth p = (p : ℚ) / 444 + 0.06) /\
    calculatePaperbackSpineWidth 444 = 1.06 /\
    calculatePaperbackSpineWidth 0 = 0.06 /\
    (∀ p q : ℤ, p < q →
       calculatePaperbackSpineWidth p < calculatePaperbackSpineWidth q) := by
  refine ⟨fun p _ => rfl, by norm_num [calculatePaperbackSpineWidth],
          by norm_num [calculatePaperbackSpineWidth], ?_⟩
  intro p q h
  unfold calculatePaperbackSpineWidth
  have h1 : (p : ℚ) < (q : ℚ) := by exact_mod_cast h
  linarith

/-- Witness for C3 at 444 pages and at the pair 0 < 1. -/
theorem claim_C3_witness :
    (0 : ℤ) ≤ 444 /\
    calculatePaperbackSpineWidth 444 = (444 : ℚ) / 444 + 0.06 /\
    (0 : ℤ) < 1 /\
    calculatePaperbackSpineWidth 0 < calculatePaperbackSpineWidth 1 :=
  ⟨by decide, claim_C3.1 444 (by decide), by decide,
   claim_C3.2.2.2 0 1 (by decide)⟩

/-- Claim C9: calculateHardcoverSpineWidth is monotone non-decreasing on
non-negative page counts. -/
theorem claim_C9 : ∀ p q : ℤ, 0 ≤ p → p ≤ q →
    calculateHardcoverSpineWidth p ≤ calculateHardcoverSpineWidth q := by
  intro p q hp hpq
  have hcases : p < 24 ∨ (24 ≤ p ∧ p ≤ 84) ∨ (85 ≤ p ∧ p ≤ 140) ∨ (141 ≤ p ∧ p ≤ 168) ∨ (169 ≤ p ∧ p ≤ 194) ∨ (195 ≤ p ∧ p ≤ 222) ∨ (223 ≤ p ∧ p ≤ 250) ∨ (251 ≤ p ∧ p ≤ 278) ∨ (279 ≤ p ∧ p ≤ 306) ∨ (307 ≤ p ∧ p ≤ 334) ∨ (335 ≤ p ∧ p ≤ 360) ∨ (361 ≤ p ∧ p ≤ 388) ∨ (389 ≤ p ∧ p ≤ 416) ∨ (417 ≤ p ∧ p ≤ 444) ∨ (445 ≤ p ∧ p ≤ 472) ∨ (473 ≤ p ∧ p ≤ 500) ∨ (501 ≤ p ∧ p ≤ 528) ∨ (529 ≤ p ∧ p ≤ 556) ∨ (557 ≤ p ∧ p ≤ 582) ∨ 583 ≤ p := by omega
  rcases hcases with h|h|h|h|h|h|h|h|h|h|h|h|h|h|h|h|h|h|h|h
  · rw [hcVal0 p h]; exact hcMin0 q
  · rw [hcVal1 p h.1 h.2]; exact hcMin1 q (by omega)
  · rw [hcVal2 p h.1 h.2]; exact hcMin2 q (by omega)
  · rw [hcVal3 p h.1 h.2]; exact hcMin3 q (by omega)
  · rw [hcVal4 p h.1 h.2]; exact hcMin4 q (by omega)
  · rw [hcVal5 p h.1 h.2]; exact hcMin5 q (by omega)
  · rw [hcVal6 p h.1 h.2]; exact hcMin6 q (by omega)
  · rw [hcVal7 p h.1 h.2]; exact hcMin7 q (by omega)
  · rw [hcVal8 p h.1 h.2]; exact hcMin8 q (by omega)
  · rw [hcVal9 p h.1 h.2]; exact hcMin9 q (by omega)
  · rw [hcVal10 p h.1 h.2]; exact hcMin10 q (by omega)
  · rw [hcVal11 p h.1 h.2]; exact hcMin11 q (by omega)
  · rw [hcVal12 p h.1 h.2]; exact hcMin12 q (by omega)
  · rw [hcVal13 p h.1 h.2]; exact hcMin13 q (by omega)
  · rw [hcVal14 p h.1 h.2]; exact hcMin14 q (by omega)
  · rw [hcVal15 p h.1 h.2]; exact hcMin15 q (by omega)
  · rw [hcVal16 p h.1 h.2]; exact hcMin16 q (by omega)
  · rw [hcVal17 p h.1 h.2]; exact hcMin17 q (by omega)
  · rw [hcVal18 p h.1 h.2]; exact hcMin18 q (by omega)
  · rw [hcVal19 p h]; exact hcMin19 q (by omega)

/-- Witness for C9 at the pair 100 ≤ 200. -/
theorem claim_C9_witness :
    (0 : ℤ) ≤ 100 /\ (100 : ℤ) ≤ 200 /\
    calculateHardcoverSpineWidth 100 ≤ calculateHardcoverSpineWidth 200 :=
  ⟨by decide, by decide, claim_C9 100 200 (by decide) (by decide)⟩


/-- Claim C4: looking up an id absent from the catalog (such as
"doesNotExist") makes resolution fail with UnknownFormatId instead of
silently substituting a default; no format is emitted, so the caller's
already-resolved format, and the constant catalog, are untouched. -/
theorem claim_C4 :
    lookupFormat "doesNotExist" = none /\
    (∀ (formatId : String) (s : ControlsState),
      lookupFormat formatId = none →
      handleFormatChange formatId s = .error .UnknownFormatId) := by
  refine ⟨rfl, ?_⟩
  intro formatId s h
  unfold handleFormatChange
  rw [h]

/-- Witness for C4 at the id "doesNotExist". -/
theorem claim_C4_witness :
    lookupFormat "doesNotExist" = none /\
    handleFormatChange "doesNotExist" initState = .error .UnknownFormatId :=
  ⟨by decide, claim_C4.2 "doesNotExist" initState (by decide)⟩

/-- Claim C8: toggling the spread checkbox on a catalog-based format
whose companion entry (id plus "Spread", or with the first "Spread"
removed) is absent from the catalog emits no format, leaving the current
format untouched and the selected id unchanged; the handler returns
normally, so the condition is not fatal. -/
theorem claim_C8 : ∀ (v : Bool) (s : ControlsState),
    s.useCustomSize = false →
    ((v = true → lookupFormat (s.selectedFormat ++ "Spread") = none →
        handleToggleSpread v s = ({ s with isSpread := v }, none)) /\
     (v = false → lookupFormat (jsReplaceFirst s.selectedFormat "Spread" "") = none →
        handleToggleSpread v s = ({ s with isSpread := v }, none))) := by
  rintro v ⟨sf, pc, isp, bt, cw, ch, uc⟩ h
  dsimp only at h
  subst h
  constructor <;> (rintro rfl hl; unfold handleToggleSpread; simp [hl])

/-- Witness for C8: the a5 format has no a5Spread companion. -/
theorem claim_C8_witness :
    ({ initState with selectedFormat := "a5" } : ControlsState).useCustomSize = false /\
    lookupFormat ("a5" ++ "Spread") = none /\
    handleToggleSpread true { initState with selectedFormat := "a5" } =
      ({ initState with selectedFormat := "a5", isSpread := true }, none) :=
  ⟨rfl, by decide,
   (claim_C8 true { initState with selectedFormat := "a5" } rfl).1 rfl (by decide)⟩

/-- Claim C10: in the catalog every entry's id equals its lookup key;
every non-spread entry has withBleed exceeding noBleed by 0.25 in both
dimensions; the spread entries are exactly pocketbookSpread and
digestSpread, and they exceed noBleed by 0.5 in width and 0.25 in
height. -/
theorem claim_C10 :
    (∀ p : String × BookFormat, p ∈ BOOK_FORMATS → p.2.id = p.1 ∧
      (p.2.isSpread = false →
        p.2.withBleed.width = p.2.noBleed.width + 0.25 ∧
        p.2.withBleed.height = p.2.noBleed.height + 0.25) ∧
      (p.2.isSpread = true →
        p.2.withBleed.width = p.2.noBleed.width + 0.5 ∧
        p.2.withBleed.height = p.2.noBleed.height + 0.25)) ∧
    (BOOK_FORMATS.filter (fun p => p.2.isSpread)).map Prod.fst =
      ["pocketbookSpread", "digestSpread"] := by
  constructor
  · intro p hp
    simp only [BOOK_FORMATS, List.mem_cons, List.not_mem_nil, or_false] at hp
    rcases hp with rfl | rfl | rfl | rfl | rfl | rfl | rfl | rfl <;> norm_num
  · rfl

/-- Witness for C10 at the first catalog entry. -/
theorem claim_C10_witness :
    (BOOK_FORMATS.get ⟨0, by decide⟩) ∈ BOOK_FORMATS ∧
    (BOOK_FORMATS.get ⟨0, by decide⟩).2.id = (BOOK_FORMATS.get ⟨0, by decide⟩).1 :=
  ⟨List.get_mem BOOK_FORMATS 0 (by decide),
   (claim_C10.1 (BOOK_FORMATS.get ⟨0, by decide⟩)
     (List.get_mem BOOK_FORMATS 0 (by decide))).1⟩


/-- Counterexample to C5 as stated: switching back from a spread to its
single-page companion emits the raw pocketbook catalog entry, whose
gutterWidth is 0 rather than getGutterWidth 200 = 0.5 and whose
pageCount is absent rather than 200; and even handleFormatChange on the
non-spread usTrade entry leaves pageCount unset. -/
theorem claim_C5_counterexample :
    ((handleToggleSpread false cex5State).2.map fun f => f.gutterWidth) = some 0 ∧
    ((handleToggleSpread false cex5State).2.map fun f => f.gutterWidth) ≠
      some (getGutterWidth cex5State.pageCount) ∧
    ((handleToggleSpread false cex5State).2.map fun f => f.pageCount) = some none ∧
    ((handleToggleSpread false cex5State).2.map fun f => f.pageCount) ≠
      some (some cex5State.pageCount) ∧
    ((handleFormatChange "usTrade" cex5SingleState).map fun r => r.2.pageCount) =
      .ok none ∧
    ((handleFormatChange "usTrade" cex5SingleState).map fun r => r.2.pageCount) ≠
      .ok (some 200) := by
  refine ⟨rfl, ?_, rfl, ?_, rfl, ?_⟩
  · have e1 : ((handleToggleSpread false cex5State).2.map fun f => f.gutterWidth) =
        some 0 := rfl
    have e2 : getGutterWidth cex5State.pageCount = 0.5 := rfl
    rw [e1, e2]
    norm_num
  · have e1 : ((handleToggleSpread false cex5State).2.map fun f => f.pageCount) =
        some none := rfl
    rw [e1]
    simp
  · have e1 : ((handleFormatChange "usTrade" cex5SingleState).map
        fun r => r.2.pageCount) = .ok none := rfl
    rw [e1]
    simp

/-- Claim C5 as amended: for a catalog id present in the table,
handleFormatChange returns a copy of the entry with gutterWidth
overwritten by the gutter rule at the current page count, but overwrites
pageCount and spineWidth (via the selected binding rule) only when the
entry is a spread, leaving them as in the catalog otherwise; and the
switch-back-from-spread path emits the companion catalog entry verbatim
with no overwriting at all. -/
theorem claim_C5 :
    (∀ (formatId : String) (entry : BookFormat) (s : ControlsState),
      lookupFormat formatId = some entry →
        (handleFormatChange formatId s).map (fun r => r.2.gutterWidth) =
          .ok (getGutterWidth s.pageCount) ∧
        (handleFormatChange formatId s).map
            (fun r => (r.2.id, r.2.noBleed, r.2.withBleed, r.2.isSpread)) =
          .ok (entry.id, entry.noBleed, entry.withBleed, entry.isSpread) ∧
        (entry.isSpread = true →
          (handleFormatChange formatId s).map
              (fun r => (r.2.pageCount, r.2.spineWidth)) =
            .ok (some s.pageCount, some (spineWidthFor s.bindingType s.pageCount))) ∧
        (entry.isSpread = false →
          (handleFormatChange formatId s).map
              (fun r => (r.2.pageCount, r.2.spineWidth)) =
            .ok (entry.pageCount, entry.spineWidth))) ∧
    (∀ (s : ControlsState) (entry : BookFormat),
      s.useCustomSize = false →
      lookupFormat (jsReplaceFirst s.selectedFormat "Spread" "") = some entry →
      (handleToggleSpread false s).2 = some entry) := by
  constructor
  · intro formatId entry s h
    unfold handleFormatChange
    rw [h]
    cases h2 : entry.isSpread <;> simp [h2, Except.map]
  · rintro ⟨sf, pc, isp, bt, cw, ch, uc⟩ entry h hl
    dsimp only at h hl
    subst h
    unfold handleToggleSpread
    simp [hl]

/-- Witness for C5 as amended, at the usTrade entry. -/
theorem claim_C5_witness :
    lookupFormat "usTrade" = some
      { id := "usTrade", name := "US Trade",
        noBleed := { width := 6, height := 9 },
        withBleed := { width := 6.25, height := 9.25 },
        isSpread := false, gutterWidth := 0 } ∧
    (handleFormatChange "usTrade" initState).map (fun r => r.2.gutterWidth) =
      .ok (getGutterWidth initState.pageCount) :=
  ⟨rfl, (claim_C5.1 "usTrade"
    { id := "usTrade", name := "US Trade",
      noBleed := { width := 6, height := 9 },
      withBleed := { width := 6.25, height := 9.25 },
      isSpread := false, gutterWidth := 0 } initState rfl).1⟩

/-- Counterexample to C6 as stated: resolving pocketbookSpread at 30
pages yields a spread format whose gutterWidth is 0, and drawGutterArea
then adds no gutter band at all, not a degenerate zero-width one. -/
theorem claim_C6_counterexample :
    (handleFormatChange "pocketbookSpread" cex6State).map (fun r => r.2) =
      .ok cex6Format ∧
    cex6Format.isSpread = true ∧
    cex6Format.gutterWidth = 0 ∧
    (drawGutterArea cex6Format 72).map GutterOverlay.gutterArea = some none ∧
    (drawGutterArea cex6Format 72).map GutterOverlay.gutterArea ≠
      some (some { left := cex6Format.withBleed.width * 72 / 2 -
                     cex6Format.gutterWidth * 72 / 2,
                   top := 0, width := cex6Format.gutterWidth * 72,
                   height := cex6Format.withBleed.height * 72 }) := by
  have e4 : (drawGutterArea cex6Format 72).map GutterOverlay.gutterArea =
      some none := by
    unfold drawGutterArea
    norm_num [cex6Format, getGutterWidth]
  refine ⟨rfl, rfl, rfl, e4, ?_⟩
  rw [e4]
  simp

/-- Claim C6 as amended: for a spread format and positive scale, the
center line always sits at the horizontal midpoint, but the gutter band
is added only when gutterWidth is positive; when gutterWidth is 0 no
band is produced.  Any band produced is centered on the midpoint, with
width gutterWidth in device units and full bled height. -/
theorem claim_C6 : ∀ (f : BookFormat) (dpi : ℚ), f.isSpread = true → 0 < dpi →
    ((drawGutterArea f dpi).map GutterOverlay.centerLineX =
        some (f.withBleed.width * dpi / 2) ∧
     (0 < f.gutterWidth →
       (drawGutterArea f dpi).map GutterOverlay.gutterArea =
         some (some { left := f.withBleed.width * dpi / 2 - f.gutterWidth * dpi / 2,
                      top := 0, width := f.gutterWidth * dpi,
                      height := f.withBleed.height * dpi })) ∧
     (f.gutterWidth = 0 →
       (drawGutterArea f dpi).map GutterOverlay.gutterArea = some none) ∧
     (∀ b : Band,
       (drawGutterArea f dpi).map GutterOverlay.gutterArea = some (some b) →
       b.left + b.width / 2 = f.withBleed.width * dpi / 2 ∧
       b.width = f.gutterWidth * dpi ∧ b.top = 0 ∧
       b.height = f.withBleed.height * dpi)) := by
  intro f dpi hsp hdpi
  refine ⟨?_, ?_, ?_, ?_⟩
  · unfold drawGutterArea
    simp [hsp]
  · intro hg
    have hgt : 0 < f.gutterWidth * dpi := mul_pos hg hdpi
    unfold drawGutterArea
    simp [hsp, hgt]
  · intro hg0
    unfold drawGutterArea
    simp [hsp, hg0]
  · intro b hb
    unfold drawGutterArea at hb
    simp [hsp] at hb
    obtain ⟨hgt, rfl⟩ := hb
    exact ⟨by ring, rfl, rfl, rfl⟩

/-- Witness for C6 as amended, on a spread with gutter width 1 inch at
72 dpi. -/
theorem claim_C6_witness :
    witFormat.isSpread = true ∧ (0 : ℚ) < 72 ∧ (0 : ℚ) < witFormat.gutterWidth ∧
    (drawGutterArea witFormat 72).map GutterOverlay.gutterArea =
      some (some { left := witFormat.withBleed.width * 72 / 2 -
                     witFormat.gutterWidth * 72 / 2,
                   top := 0, width := witFormat.gutterWidth * 72,
                   height := witFormat.withBleed.height * 72 }) :=
  ⟨rfl, by decide, by decide,
   (claim_C6 witFormat 72 rfl (by decide)).2.1 (by decide)⟩

/-- Claim C7: every path that constructs a custom format from the stored
custom dimensions yields noBleed equal to those dimensions and withBleed
exceeding them by 0.25 in each dimension; the toggle-custom-size
initialization path keeps the same additive rule over the seeded catalog
dimensions; and width 5, height 8 produce noBleed 5 by 8 and withBleed
5.25 by 8.25. -/
theorem claim_C7 :
    (∀ s : ControlsState, s.useCustomSize = true →
      (updateFormat s).map (fun f => (f.noBleed, f.withBleed)) =
        .ok ({ width := s.customWidth, height := s.customHeight },
             { width := s.customWidth + 0.25, height := s.customHeight + 0.25 })) ∧
    (∀ (count : ℤ) (s : ControlsState), s.useCustomSize = true →
      (handlePageCountChange count s).map (fun r => (r.2.noBleed, r.2.withBleed)) =
        .ok ({ width := s.customWidth, height := s.customHeight },
             { width := s.customWidth + 0.25, height := s.customHeight + 0.25 })) ∧
    (∀ (v : Bool) (s : ControlsState), s.useCustomSize = true →
      (handleToggleSpread v s).2.map (fun f => (f.noBleed, f.withBleed)) =
        some ({ width := s.customWidth, height := s.customHeight },
              { width := s.customWidth + 0.25, height := s.customHeight + 0.25 })) ∧
    (∀ (t : BindingType) (s : ControlsState),
      s.useCustomSize = true → s.isSpread = true →
      (handleBindingTypeChange t s).map
          (fun r => r.2.map fun f => (f.noBleed, f.withBleed)) =
        .ok (some ({ width := s.customWidth, height := s.customHeight },
                   { width := s.customWidth + 0.25,
                     height := s.customHeight + 0.25 }))) ∧
    (∀ (s : ControlsState) (cur : BookFormat),
      s.customWidth = 0 → s.customHeight = 0 →
      lookupFormat s.selectedFormat = some cur →
      (handleToggleCustomSize true s).map
          (fun r => r.2.map fun f => (f.noBleed, f.withBleed)) =
        .ok (some ({ width := cur.noBleed.width, height := cur.noBleed.height },
                   { width := cur.noBleed.width + 0.25,
                     height := cur.noBleed.height + 0.25 }))) ∧
    (updateFormat customFiveEight).map (fun f => (f.noBleed, f.withBleed)) =
      .ok ({ width := 5, height := 8 }, { width := 5.25, height := 8.25 }) := by
  refine ⟨?_, ?_, ?_, ?_, ?_, ?_⟩
  · rintro ⟨sf, pc, isp, bt, cw, ch, uc⟩ h
    dsimp only at h
    subst h
    cases isp <;> rfl
  · rintro count ⟨sf, pc, isp, bt, cw, ch, uc⟩ h
    dsimp only at h
    subst h
    cases isp <;> rfl
  · rintro v ⟨sf, pc, isp, bt, cw, ch, uc⟩ h
    dsimp only at h
    subst h
    cases v <;> rfl
  · rintro t ⟨sf, pc, isp, bt, cw, ch, uc⟩ h hsp
    dsimp only at h hsp
    subst h
    subst hsp
    rfl
  · rintro ⟨sf, pc, isp, bt, cw, ch, uc⟩ cur h1 h2 hcur
    dsimp only at h1 h2 hcur
    subst h1
    subst h2
    unfold handleToggleCustomSize
    simp only [hcur]
    cases isp <;> simp [Except.map]
  · unfold updateFormat mkCustomFormat
    norm_num [customFiveEight, Except.map]

/-- Witness for C7 on the 5 by 8 custom state. -/
theorem claim_C7_witness :
    customFiveEight.useCustomSize = true ∧
    (updateFormat customFiveEight).map (fun f => (f.noBleed, f.withBleed)) =
      .ok ({ width := customFiveEight.customWidth,
             height := customFiveEight.customHeight },
           { width := customFiveEight.customWidth + 0.25,
             height := customFiveEight.customHeight + 0.25 }) :=
  ⟨rfl, claim_C7.1 customFiveEight rfl⟩

end PdfGen
